import Mathlib

set_option linter.unusedVariables false

/-!
Verification development for `PWGMM/Rivet/doc/analyses/ALICE_YYYY_I1234567.py`,
a small interactive plotting script.  The script is shallowly embedded: the
procedure `plotit` becomes a pure function from an environment (whether the
library imports succeed, and the analysis objects the YODA reader would return
for the input file) to a record of every observable effect: lines printed,
number of reads of the input file, the data handed to `errorbar`, the axis
labels and title set on the axes, whether the figure was shown, the path of a
saved PNG, and the exception outcome.  Python floats are modelled as rationals.
-/

/-- Analysis object as consumed by the script.  Python is duck-typed: the same
`aos.get` dictionary holds histograms (providing `effNumEntries`, `xVals`,
`yVals`, `yErrs`, `xErrs`) and counters (providing `val`), so one record with
all accessors models every object the script touches. -/
structure AnalysisObject where
  effNumEntries : ℚ
  val : ℚ
  xVals : List ℚ
  yVals : List ℚ
  yErrs : List (ℚ × ℚ)
  xErrs : List (ℚ × ℚ)
deriving DecidableEq, Repr

/-- The dictionary returned by `readYODA`, keyed by object path. -/
abbrev AOS : Type := List (String × AnalysisObject)

/-- Lookup `aos.get(key, None)`. -/
def aosGet (aos : AOS) (key : String) : Option AnalysisObject :=
  (List.find? (fun e => e.1 == key) aos).map (fun e => e.2)

/-- Environment of a `plotit` call: whether the matplotlib/yoda/numpy imports
succeed (with the message printed when they do not), and the value
`readYODA(infile)` would return (`none` models Python `None`). -/
structure Env where
  importsOk : Bool
  importErrMsg : String
  aos : Option AOS
deriving DecidableEq, Repr

/-- Exception outcome of a `plotit` call: normal return, a raised
`RuntimeError` (caught by the entry point), or a raised `AttributeError`
(not caught by the entry point). -/
inductive Outcome where
  | ok : Outcome
  | raisedRuntime : String → Outcome
  | raisedAttr : String → Outcome
deriving DecidableEq, Repr

/-- True exactly for the `raisedAttr` outcome. -/
def Outcome.isAttr : Outcome → Bool
  | .raisedAttr _ => true
  | _ => false

/-- Data passed to `ax.errorbar`. -/
structure Drawn where
  xVals : List ℚ
  yVals : List ℚ
  yErrs : List (ℚ × ℚ)
  xErrs : List (ℚ × ℚ)
deriving DecidableEq, Repr

/-- Observable result of a `plotit` call. -/
structure PlotResult where
  printed : List String
  reads : Nat
  drawn : Option Drawn
  xlabel : Option String
  ylabel : Option String
  title : Option String
  shown : Bool
  savedPng : Option String
  outcome : Outcome
deriving DecidableEq, Repr

/-- Result with nothing drawn, labelled, shown or saved. -/
def emptyResult (reads : Nat) (printed : List String) (oc : Outcome) : PlotResult :=
  { printed := printed, reads := reads, drawn := none, xlabel := none, ylabel := none,
    title := none, shown := false, savedPng := none, outcome := oc }

/-- The state of the loop variables `prefix`, `histo`, `nev`, `xsec`. -/
structure LoopSt where
  pfx : String
  histo : Option AnalysisObject
  nev : Option AnalysisObject
  xsec : Option AnalysisObject
deriving DecidableEq, Repr

/-- Initial loop state: `histo = nev = xsec = None`, `prefix = ''` (line 23). -/
def initSt : LoopSt :=
  { pfx := "", histo := none, nev := none, xsec := none }

/-- Loop-body assignments for one candidate name prefix (lines 25-27). -/
def stateAt (aos : AOS) (p : String) : LoopSt :=
  { pfx := p,
    histo := aosGet aos (p ++ "/ALICE_YYYY_I1234567/d01-x01-y01"),
    nev := aosGet aos (p ++ "/_EVTCOUNT"),
    xsec := aosGet aos (p ++ "/_XSEC") }

/-- The `break` condition of lines 28-31: `histo is not None and
histo.effNumEntries() > .1 and nev is not None and xsec is not None`. -/
def breakCond (aos : AOS) (p : String) : Bool :=
  match (stateAt aos p).histo with
  | none => false
  | some h =>
      decide (mkRat 1 10 < h.effNumEntries)
        && (stateAt aos p).nev.isSome && (stateAt aos p).xsec.isSome

/-- The prefixes searched, in order (line 24). -/
def pfxList : List String := ["", "/RAW", "/REF"]

/-- The `for prefix in [...]` loop with `break` (lines 24-32).  Python
semantics: each iteration overwrites the loop variables; on `break` the loop
stops with the current assignments; when the list is exhausted the variables
keep the last iteration's values. -/
def runLoop (aos : AOS) : LoopSt → List String → LoopSt
  | st, [] => st
  | _,  p :: ps => if breakCond aos p then stateAt aos p else runLoop aos (stateAt aos p) ps

/-- Python `int()` applied to a rational value: truncation toward zero. -/
def pyInt (q : ℚ) : ℤ :=
  if 0 ≤ q then ⌊q⌋ else ⌈q⌉

/-- The x-axis label set on line 43. -/
def xAxisLabel : String := "$\\eta$"

/-- The y-axis label set on line 44. -/
def yAxisLabel : String := "$\\mathrm\x7bd\x7dN_\x7b\\mathrm\x7bch\x7d\x7d/\\mathrm\x7bd\x7d\\eta$"

/-- The title of lines 45-46:
`f'{int(nev.val())} events {"("+prefix+")" if len(prefix)>0 else ""}'`. -/
def mkTitle (nv : AnalysisObject) (p : String) : String :=
  toString (pyInt nv.val) ++ " events " ++ (if p.length > 0 then "(" ++ p ++ ")" else "")

/-- Model of `Path(infile.name).with_suffix('.png')` and its stem/directory
decomposition.  `splitLastAux c s` splits `s` at the last occurrence of `c`,
returning `none` when `c` does not occur. -/
def splitLastAux (c : Char) : List Char → Option (List Char × List Char)
  | [] => none
  | x :: xs =>
      match splitLastAux c xs with
      | some (a, b) => some (x :: a, b)
      | none => if x = c then some ([], xs) else none

/-- Split a path into its directory part (ending in the separator, or empty)
and its final component. -/
def pathParts (path : String) : String × String :=
  match splitLastAux '/' path.toList with
  | some (d, n) => (String.mk d ++ "/", String.mk n)
  | none => ("", path)

/-- Split a file name into stem and suffix, per `pathlib`: the suffix is the
part from the last dot, except that a dot at position 0 or in the last
position never starts a suffix (pathlib requires `0 < i < len(name) - 1` for
the last dot's index `i`; a name ending in a dot has an empty suffix, so
`with_suffix` appends instead of replacing). -/
def nameSplit (name : String) : String × String :=
  match name.toList with
  | [] => ("", "")
  | c0 :: rest =>
      match splitLastAux '.' rest with
      | some (_, []) => (name, "")
      | some (a, b) => (String.mk (c0 :: a), String.mk ('.' :: b))
      | none => (name, "")

/-- `Path(path).with_suffix('.png')` (lines 54-55): same directory, same stem,
suffix replaced by `.png`. -/
def withSuffixPng (path : String) : String :=
  (pathParts path).1 ++ (nameSplit (pathParts path).2).1 ++ ".png"

/-- Shallow embedding of `plotit(infile, raw, reference, save)` (lines 3-57).
`infile` is the name (path string) of the already-open input file handle.
The `raw` and `reference` parameters are accepted, as in the source, and the
body never reads them. -/
def plotit (env : Env) (infile : String)
    (raw : Bool) (reference : Bool) (save : Bool) : PlotResult :=
  if env.importsOk then
    match env.aos with
    | none => emptyResult 1 [] (.raisedRuntime ("No AOS read from " ++ infile))
    | some aos =>
        let st := runLoop aos initSt pfxList
        match st.histo with
        | none => emptyResult 1 [] (.raisedRuntime ("Histogram not found in " ++ infile))
        | some h =>
            let d : Drawn :=
              { xVals := h.xVals, yVals := h.yVals, yErrs := h.yErrs, xErrs := h.xErrs }
            match st.nev with
            | none =>
                -- `int(nev.val())` with `nev = None` raises before `set_title`
                -- completes; `errorbar` and the axis labels already happened.
                { printed := [], reads := 1, drawn := some d,
                  xlabel := some xAxisLabel, ylabel := some yAxisLabel,
                  title := none, shown := false, savedPng := none,
                  outcome := .raisedAttr "NoneType object has no attribute val" }
            | some nv =>
                { printed := [], reads := 1, drawn := some d,
                  xlabel := some xAxisLabel, ylabel := some yAxisLabel,
                  title := some (mkTitle nv st.pfx), shown := true,
                  savedPng := if save then some (withSuffixPng infile) else none,
                  outcome := .ok }
  else
    emptyResult 0 [env.importErrMsg] .ok

/-- Option-like token test: does the token begin with a dash? -/
def startsWithDash (t : String) : Bool :=
  match t.toList with
  | [] => false
  | c :: _ => c = '-'

/-- Parsed command-line arguments. -/
structure Args where
  input : String
  raw : Bool
  reference : Bool
  save : Bool
deriving DecidableEq, Repr

/-- The default input file name (line 64). -/
def defaultInput : String := "AO2D_LHC23d1f_520259_001.yoda"

/-- Modelled from standard `argparse` as configured on lines 63-76: one
optional positional `input` with a default, store-true flags `-r` (`--raw`),
`-R` (`--reference`), `-s` (`--save`), and the auto-added `-h` (`--help`); the patched
`ap.exit` turns every parser exit (bad flag, extra positional, help) into a
raised `RuntimeError`, modelled as `Except.error` with the message.  Help text
itself is not modelled (the patched exit for `-h` carries an empty message). -/
def parseGo : List String → Option String → Bool → Bool → Bool → Except String Args
  | [], pos, r, rf, s =>
      .ok { input := pos.getD defaultInput, raw := r, reference := rf, save := s }
  | t :: ts, pos, r, rf, s =>
      if t = "-r" || t = "--raw" then parseGo ts pos true rf s
      else if t = "-R" || t = "--reference" then parseGo ts pos r true s
      else if t = "-s" || t = "--save" then parseGo ts pos r rf true
      else if t = "-h" || t = "--help" then .error ""
      else if startsWithDash t then .error ("unrecognized arguments: " ++ t)
      else
        match pos with
        | none => parseGo ts (some t) r rf s
        | some _ => .error ("unrecognized arguments: " ++ t)

/-- Parse an argument vector (everything after the program name). -/
def parseArgs (argv : List String) : Except String Args :=
  parseGo argv none false false false

/-- Observable result of the `__main__` block. -/
structure MainResult where
  printed : List String
  promptPrinted : Bool
  exited : Option Nat
  uncaught : Option String
  plot : Option PlotResult
deriving DecidableEq, Repr

/-- The final message of line 87. -/
def promptMsg : String := "Type Ctrl-D or write exit() to end"

/-- Shallow embedding of the `__main__` block (lines 60-87).  `parsed` is the
outcome of `ap.parse_args()`: `Except.error msg` when the patched `ap.exit`
raised (syntax error, unopenable file, or help), `Except.ok` otherwise.  The
`try` catches only `RuntimeError`; the process never calls a real exit
(`exited = none` everywhere), and the prompt line runs unless an uncaught
exception aborts the block. -/
def mainRun (env : Env) (parsed : Except String Args) : MainResult :=
  match parsed with
  | .error msg =>
      { printed := [msg], promptPrinted := true, exited := none,
        uncaught := none, plot := none }
  | .ok a =>
      let r := plotit env a.input a.raw a.reference a.save
      match r.outcome with
      | .ok =>
          { printed := r.printed, promptPrinted := true, exited := none,
            uncaught := none, plot := some r }
      | .raisedRuntime m =>
          { printed := r.printed ++ [m], promptPrinted := true, exited := none,
            uncaught := none, plot := some r }
      | .raisedAttr m =>
          { printed := r.printed, promptPrinted := false, exited := none,
            uncaught := some m, plot := some r }

/-- The selection rule exactly as the spec sentence words it (for claim C1):
the first prefix under which the histogram exists and has more than 0.1
effective entries — with no requirement on the companions. -/
def specCond (aos : AOS) (p : String) : Bool :=
  match aosGet aos (p ++ "/ALICE_YYYY_I1234567/d01-x01-y01") with
  | none => false
  | some h => decide (mkRat 1 10 < h.effNumEntries)

/-- First prefix matching the spec-worded condition. -/
def specSelect (aos : AOS) : Option String :=
  List.find? (specCond aos) pfxList

/-! Helper lemmas about the prefix-search loop and the path model. -/

/-- When some prefix satisfies the break condition, the loop stops at the
first such prefix with that iteration's assignments. -/
theorem runLoop_break (aos : AOS) (p : String)
    (hp : List.find? (breakCond aos) pfxList = some p) :
    runLoop aos initSt pfxList = stateAt aos p := by
  by_cases h1 : breakCond aos ""
  · simp [pfxList, List.find?, h1] at hp
    subst hp
    simp [pfxList, runLoop, h1]
  · by_cases h2 : breakCond aos "/RAW"
    · simp [pfxList, List.find?, h1, h2] at hp
      subst hp
      simp [pfxList, runLoop, h1, h2]
    · by_cases h3 : breakCond aos "/REF"
      · simp [pfxList, List.find?, h1, h2, h3] at hp
        subst hp
        simp [pfxList, runLoop, h1, h2, h3]
      · simp [pfxList, List.find?, h1, h2, h3] at hp

/-- When no prefix satisfies the break condition, the loop runs to exhaustion
and the variables keep the assignments of the last prefix `"/REF"`. -/
theorem runLoop_exhaust (aos : AOS)
    (hno : ∀ p ∈ pfxList, breakCond aos p = false) :
    runLoop aos initSt pfxList = stateAt aos "/REF" := by
  have h1 := hno "" (by simp [pfxList])
  have h2 := hno "/RAW" (by simp [pfxList])
  have h3 := hno "/REF" (by simp [pfxList])
  simp [pfxList, runLoop, h1, h2, h3]

/-- A prefix satisfying the break condition provides the histogram above the
threshold and both companions. -/
theorem breakCond_elim (aos : AOS) (p : String) (hc : breakCond aos p = true) :
    ∃ h nv xs, (stateAt aos p).histo = some h ∧ mkRat 1 10 < h.effNumEntries ∧
      (stateAt aos p).nev = some nv ∧ (stateAt aos p).xsec = some xs := by
  unfold breakCond at hc
  cases hh : (stateAt aos p).histo with
  | none => rw [hh] at hc; exact absurd hc (by simp)
  | some h =>
      rw [hh] at hc
      simp only [Bool.and_eq_true, decide_eq_true_eq, Option.isSome_iff_exists] at hc
      obtain ⟨⟨hlt, nv, hnv⟩, xs, hxs⟩ := hc
      exact ⟨h, nv, xs, rfl, hlt, hnv, hxs⟩

/-- The two runtime error messages differ for every input file name. -/
theorem messages_ne (s : String) :
    "Histogram not found in " ++ s ≠ "No AOS read from " ++ s := by
  intro h
  have h2 := congrArg String.length h
  rw [String.length_append, String.length_append] at h2
  have e1 : ("Histogram not found in ").length = 23 := rfl
  have e2 : ("No AOS read from ").length = 17 := rfl
  rw [e1, e2] at h2
  omega

/-- Correctness of the last-occurrence splitter: a successful split
reassembles to the input with the separator between the parts. -/
theorem splitLastAux_append (c : Char) :
    ∀ (s a b : List Char), splitLastAux c s = some (a, b) → s = a ++ c :: b := by
  intro s
  induction s with
  | nil => intro a b h; simp [splitLastAux] at h
  | cons x xs ih =>
      intro a b h
      unfold splitLastAux at h
      cases hs : splitLastAux c xs with
      | some ab =>
          obtain ⟨a0, b0⟩ := ab
          simp only [hs, Option.some.injEq, Prod.mk.injEq] at h
          obtain ⟨ha, hb⟩ := h
          subst ha
          subst hb
          rw [ih a0 b0 hs]
          simp
      | none =>
          simp only [hs] at h
          by_cases hx : x = c
          · rw [if_pos hx] at h
            simp only [Option.some.injEq, Prod.mk.injEq] at h
            obtain ⟨ha, hb⟩ := h
            subst ha
            subst hb
            simp [hx]
          · rw [if_neg hx] at h
            exact absurd h (by simp)

/-- The directory part and the file name reassemble to the path. -/
theorem pathParts_append (path : String) :
    (pathParts path).1 ++ (pathParts path).2 = path := by
  unfold pathParts
  cases hs : splitLastAux '/' path.toList with
  | none => simp
  | some db =>
      obtain ⟨d, n⟩ := db
      have hrec := splitLastAux_append '/' path.toList d n hs
      simp only []
      have e1 : String.mk d ++ "/" ++ String.mk n = String.mk ((d ++ ['/']) ++ n) := rfl
      rw [e1]
      have e2 : path = String.mk path.toList := rfl
      rw [e2, hrec]
      apply congrArg String.mk
      simp

/-- The stem and the suffix reassemble to the file name. -/
theorem nameSplit_append (name : String) :
    (nameSplit name).1 ++ (nameSplit name).2 = name := by
  unfold nameSplit
  cases hl : name.toList with
  | nil =>
      simp only [hl]
      have e2 : name = String.mk name.toList := rfl
      rw [e2, hl]
      rfl
  | cons c0 rest =>
      cases hs : splitLastAux '.' rest with
      | none =>
          simp only [hl, hs]
          exact String.append_empty name
      | some ab =>
          obtain ⟨a, b⟩ := ab
          cases b with
          | nil =>
              simp only [hl, hs]
              exact String.append_empty name
          | cons b0 bs =>
              have hrec := splitLastAux_append '.' rest a (b0 :: bs) hs
              simp only [hl, hs]
              have e1 : String.mk (c0 :: a) ++ String.mk ('.' :: b0 :: bs)
                  = String.mk ((c0 :: a) ++ '.' :: b0 :: bs) := rfl
              rw [e1]
              have e2 : name = String.mk name.toList := rfl
              rw [e2, hl, hrec]
              apply congrArg String.mk
              simp

/-- Edge cases of the suffix replacement, pinned against `pathlib`: a name
ending in a dot has an empty suffix, so ".png" is appended rather than
substituted; a leading dot never starts a suffix; only a dot strictly inside
the name is replaced. -/
theorem withSuffixPng_edge_cases :
    withSuffixPng "foo." = "foo..png" ∧
    withSuffixPng "dir/foo." = "dir/foo..png" ∧
    withSuffixPng ".bashrc" = ".bashrc.png" ∧
    withSuffixPng "a..b" = "a..png" ∧
    withSuffixPng "foo.yoda" = "foo.png" :=
  ⟨by decide, by decide, by decide, by decide, by decide⟩

/-- Reduction of `plotit` once the imports succeed and the read returns data:
the result is determined by the loop's final `histo` and `nev` fields. -/
theorem plotit_some (env : Env) (infile : String) (r rf s : Bool) (aos : AOS)
    (henv : env.importsOk = true) (haos : env.aos = some aos) :
    plotit env infile r rf s =
      match (runLoop aos initSt pfxList).histo with
      | none => emptyResult 1 [] (.raisedRuntime ("Histogram not found in " ++ infile))
      | some h =>
          match (runLoop aos initSt pfxList).nev with
          | none =>
              { printed := [], reads := 1,
                drawn := some { xVals := h.xVals, yVals := h.yVals,
                                yErrs := h.yErrs, xErrs := h.xErrs },
                xlabel := some xAxisLabel, ylabel := some yAxisLabel,
                title := none, shown := false, savedPng := none,
                outcome := .raisedAttr "NoneType object has no attribute val" }
          | some nv =>
              { printed := [], reads := 1,
                drawn := some { xVals := h.xVals, yVals := h.yVals,
                                yErrs := h.yErrs, xErrs := h.xErrs },
                xlabel := some xAxisLabel, ylabel := some yAxisLabel,
                title := some (mkTitle nv (runLoop aos initSt pfxList).pfx), shown := true,
                savedPng := if s then some (withSuffixPng infile) else none,
                outcome := .ok } := by
  unfold plotit
  simp only [henv, haos, if_true]

/-! Concrete input files used as counterexamples and witnesses. -/

/-- Histogram with one effective entry, above the threshold. -/
def histoFull : AnalysisObject :=
  { effNumEntries := 1, val := 0, xVals := [], yVals := [], yErrs := [], xErrs := [] }

/-- Counter object whose value is 100. -/
def counter100 : AnalysisObject :=
  { effNumEntries := 0, val := 100, xVals := [], yVals := [], yErrs := [], xErrs := [] }

/-- Histogram with zero effective entries, below the threshold. -/
def histoSparse : AnalysisObject :=
  { effNumEntries := 0, val := 0, xVals := [1], yVals := [2],
    yErrs := [(1, 1)], xErrs := [(0, 0)] }

/-- File where the default-prefix histogram passes the threshold but has no
companions, while histogram and both companions exist under "/RAW". -/
def aosRawOnlyFull : AOS :=
  [("/ALICE_YYYY_I1234567/d01-x01-y01", histoFull),
   ("/RAW/ALICE_YYYY_I1234567/d01-x01-y01", histoFull),
   ("/RAW/_EVTCOUNT", counter100),
   ("/RAW/_XSEC", counter100)]

/-- Environment reading `aosRawOnlyFull`. -/
def envRawOnlyFull : Env :=
  { importsOk := true, importErrMsg := "", aos := some aosRawOnlyFull }

/-- File whose only object is a below-threshold histogram under "/REF". -/
def aosRefSparse : AOS :=
  [("/REF/ALICE_YYYY_I1234567/d01-x01-y01", histoSparse)]

/-- Environment reading `aosRefSparse`. -/
def envRefSparse : Env :=
  { importsOk := true, importErrMsg := "", aos := some aosRefSparse }

/-- File with histogram and both companions under the default prefix. -/
def aosDefaultFull : AOS :=
  [("/ALICE_YYYY_I1234567/d01-x01-y01", histoFull),
   ("/_EVTCOUNT", counter100),
   ("/_XSEC", counter100)]

/-- Environment reading `aosDefaultFull`. -/
def envDefaultFull : Env :=
  { importsOk := true, importErrMsg := "", aos := some aosDefaultFull }

/-- Environment whose read yields no data (`readYODA` returns `None`). -/
def envNoAos : Env :=
  { importsOk := true, importErrMsg := "", aos := none }

/-- Environment where the library imports fail. -/
def envNoImports : Env :=
  { importsOk := false, importErrMsg := "No module named yoda", aos := none }

/-- Default argument record for a given input file name. -/
def argsFor (infile : String) : Args :=
  { input := infile, raw := false, reference := false, save := false }

/-! Claim C1. -/

/-- C1 is false as stated: on `aosRawOnlyFull` the first prefix whose
histogram exists with more than 0.1 effective entries is the default prefix
(`specSelect` picks `""`), yet the loop does not stop there — the event-count
and cross-section companions are missing under `""` — and the routine uses
"/RAW", as the plot title shows. -/
theorem c1_counterexample :
    specSelect aosRawOnlyFull = some "" ∧
    runLoop aosRawOnlyFull initSt pfxList = stateAt aosRawOnlyFull "/RAW" ∧
    (plotit envRawOnlyFull "f.yoda" false false false).title = some "100 events (/RAW)" :=
  ⟨by decide, by decide, by decide⟩

/-- C1 (amended): for every input file, the routine searches `""`, "/RAW",
"/REF" in order and uses the first prefix under which the histogram exists
with more than 0.1 effective entries AND the event-count and cross-section
companions are both present; the title is then derived from that prefix's
event counter. -/
theorem c1_first_full_match (env : Env) (infile : String) (r rf s : Bool)
    (aos : AOS) (p : String)
    (henv : env.importsOk = true) (haos : env.aos = some aos)
    (hp : List.find? (breakCond aos) pfxList = some p) :
    runLoop aos initSt pfxList = stateAt aos p ∧
    ∃ h nv, (stateAt aos p).histo = some h ∧ mkRat 1 10 < h.effNumEntries ∧
      (stateAt aos p).nev = some nv ∧
      (plotit env infile r rf s).title = some (mkTitle nv p) := by
  have hloop := runLoop_break aos p hp
  have hc : breakCond aos p = true := List.find?_some hp
  obtain ⟨h, nv, xs, hh, hlt, hnv, hxs⟩ := breakCond_elim aos p hc
  refine ⟨hloop, h, nv, hh, hlt, hnv, ?_⟩
  rw [plotit_some env infile r rf s aos henv haos]
  have hh2 := hh
  have hnv2 := hnv
  simp only [stateAt] at hh2 hnv2
  simp only [hloop, stateAt, hh2, hnv2]

/-- Witness for the amended C1 at the concrete file `aosRawOnlyFull`. -/
theorem c1_first_full_match_witness :
    runLoop aosRawOnlyFull initSt pfxList = stateAt aosRawOnlyFull "/RAW" ∧
    ∃ h nv, (stateAt aosRawOnlyFull "/RAW").histo = some h ∧
      mkRat 1 10 < h.effNumEntries ∧
      (stateAt aosRawOnlyFull "/RAW").nev = some nv ∧
      (plotit envRawOnlyFull "f.yoda" false false false).title = some (mkTitle nv "/RAW") :=
  c1_first_full_match envRawOnlyFull "f.yoda" false false false aosRawOnlyFull "/RAW"
    rfl rfl (by decide)

/-! Claim C2. -/

/-- C2 is false as stated: on `aosRefSparse` no prefix satisfies the
selection condition, yet the routine does not report the error — the final
"/REF" lookup produced a (below-threshold) histogram, so it proceeds and
instead raises an AttributeError while composing the title, which the entry
point does not catch. -/
theorem c2_counterexample :
    (∀ p ∈ pfxList, breakCond aosRefSparse p = false) ∧
    (plotit envRefSparse "f.yoda" false false false).outcome ≠
      Outcome.raisedRuntime ("Histogram not found in " ++ "f.yoda") ∧
    (plotit envRefSparse "f.yoda" false false false).outcome =
      Outcome.raisedAttr "NoneType object has no attribute val" ∧
    (mainRun envRefSparse (Except.ok (argsFor "f.yoda"))).printed = [] :=
  ⟨by decide, by decide, by decide, by decide⟩

/-- C2 (amended): the routine reports "Histogram not found in <infile>"
exactly in the runs where no prefix satisfies the selection condition and the
final "/REF" histogram lookup also returned nothing; then nothing is drawn or
saved, the entry point prints the message, the prompt follows, and no
unhandled exception escapes. -/
theorem c2_not_found_report (env : Env) (infile : String) (r rf s : Bool) (aos : AOS)
    (henv : env.importsOk = true) (haos : env.aos = some aos)
    (hno : ∀ p ∈ pfxList, breakCond aos p = false)
    (href : aosGet aos "/REF/ALICE_YYYY_I1234567/d01-x01-y01" = none) :
    (plotit env infile r rf s).outcome =
      Outcome.raisedRuntime ("Histogram not found in " ++ infile) ∧
    (plotit env infile r rf s).drawn = none ∧
    (plotit env infile r rf s).savedPng = none ∧
    (mainRun env (Except.ok { input := infile, raw := r, reference := rf, save := s })).printed
      = ["Histogram not found in " ++ infile] ∧
    (mainRun env (Except.ok { input := infile, raw := r, reference := rf, save := s
      })).promptPrinted = true ∧
    (mainRun env (Except.ok { input := infile, raw := r, reference := rf, save := s
      })).uncaught = none := by
  have hloop := runLoop_exhaust aos hno
  have href2 : aosGet aos ("/REF" ++ "/ALICE_YYYY_I1234567/d01-x01-y01") = none := href
  have hplot : plotit env infile r rf s =
      emptyResult 1 [] (.raisedRuntime ("Histogram not found in " ++ infile)) := by
    rw [plotit_some env infile r rf s aos henv haos]
    simp only [hloop, stateAt, href2]
  have hm : mainRun env (Except.ok { input := infile, raw := r, reference := rf, save := s }) =
      { printed := ["Histogram not found in " ++ infile], promptPrinted := true,
        exited := none, uncaught := none,
        plot := some (emptyResult 1 []
          (.raisedRuntime ("Histogram not found in " ++ infile))) } := by
    simp only [mainRun, hplot, emptyResult, List.nil_append]
  exact ⟨by rw [hplot]; rfl, by rw [hplot]; rfl, by rw [hplot]; rfl,
    by rw [hm], by rw [hm], by rw [hm]⟩

/-- Witness for the amended C2 at an empty input file. -/
theorem c2_not_found_report_witness :
    (plotit { importsOk := true, importErrMsg := "", aos := some [] }
        "f.yoda" false false false).outcome =
      Outcome.raisedRuntime ("Histogram not found in " ++ "f.yoda") ∧
    (plotit { importsOk := true, importErrMsg := "", aos := some [] }
        "f.yoda" false false false).drawn = none ∧
    (plotit { importsOk := true, importErrMsg := "", aos := some [] }
        "f.yoda" false false false).savedPng = none ∧
    (mainRun { importsOk := true, importErrMsg := "", aos := some [] }
        (Except.ok { input := "f.yoda", raw := false, reference := false, save := false
          })).printed = ["Histogram not found in " ++ "f.yoda"] ∧
    (mainRun { importsOk := true, importErrMsg := "", aos := some [] }
        (Except.ok { input := "f.yoda", raw := false, reference := false, save := false
          })).promptPrinted = true ∧
    (mainRun { importsOk := true, importErrMsg := "", aos := some [] }
        (Except.ok { input := "f.yoda", raw := false, reference := false, save := false
          })).uncaught = none :=
  c2_not_found_report { importsOk := true, importErrMsg := "", aos := some [] }
    "f.yoda" false false false [] rfl rfl (by decide) rfl

/-! Claim C3. -/

/-- Every run past the imports with data loaded ends in one of three
outcomes: the not-found error, the title AttributeError, or success. -/
theorem plotit_outcome_cases (env : Env) (infile : String) (r rf s : Bool) (aos : AOS)
    (henv : env.importsOk = true) (haos : env.aos = some aos) :
    (plotit env infile r rf s).outcome =
      Outcome.raisedRuntime ("Histogram not found in " ++ infile) ∨
    (plotit env infile r rf s).outcome =
      Outcome.raisedAttr "NoneType object has no attribute val" ∨
    (plotit env infile r rf s).outcome = Outcome.ok := by
  rw [plotit_some env infile r rf s aos henv haos]
  cases hh : (runLoop aos initSt pfxList).histo with
  | none => simp [hh, emptyResult]
  | some h =>
      cases hn : (runLoop aos initSt pfxList).nev with
      | none => simp [hh, hn]
      | some nv => simp [hh, hn]

/-- C3: with imports available, the routine fails with "No AOS read from
<infile>" exactly when the read yields no data; in that case nothing is
drawn, shown or saved, and the entry point surfaces the message as a printed
line followed by the interactive prompt, with no exit code and no uncaught
exception. -/
theorem c3_no_aos_iff (env : Env) (infile : String) (r rf s : Bool)
    (henv : env.importsOk = true) :
    ((plotit env infile r rf s).outcome =
        Outcome.raisedRuntime ("No AOS read from " ++ infile) ↔ env.aos = none) ∧
    (env.aos = none →
      (plotit env infile r rf s).drawn = none ∧
      (plotit env infile r rf s).shown = false ∧
      (plotit env infile r rf s).savedPng = none ∧
      (mainRun env (Except.ok { input := infile, raw := r, reference := rf, save := s
        })).printed = ["No AOS read from " ++ infile] ∧
      (mainRun env (Except.ok { input := infile, raw := r, reference := rf, save := s
        })).promptPrinted = true ∧
      (mainRun env (Except.ok { input := infile, raw := r, reference := rf, save := s
        })).exited = none ∧
      (mainRun env (Except.ok { input := infile, raw := r, reference := rf, save := s
        })).uncaught = none) := by
  cases haos : env.aos with
  | none =>
      have hplot : plotit env infile r rf s =
          emptyResult 1 [] (.raisedRuntime ("No AOS read from " ++ infile)) := by
        unfold plotit
        simp only [henv, haos, if_true]
      have hm : mainRun env (Except.ok { input := infile, raw := r, reference := rf, save := s }) =
          { printed := ["No AOS read from " ++ infile], promptPrinted := true,
            exited := none, uncaught := none,
            plot := some (emptyResult 1 []
              (.raisedRuntime ("No AOS read from " ++ infile))) } := by
        simp only [mainRun, hplot, emptyResult, List.nil_append]
      refine ⟨⟨fun _ => rfl, fun _ => by rw [hplot]; rfl⟩, fun _ => ?_⟩
      exact ⟨by rw [hplot]; rfl, by rw [hplot]; rfl, by rw [hplot]; rfl,
        by rw [hm], by rw [hm], by rw [hm], by rw [hm]⟩
  | some aos =>
      refine ⟨⟨fun hout => ?_, fun hnone => by simp at hnone⟩,
        fun hnone => by simp at hnone⟩
      rcases plotit_outcome_cases env infile r rf s aos henv haos with h1 | h1 | h1 <;>
        rw [hout] at h1
      · exact absurd (by injection h1) (fun he => messages_ne infile (Eq.symm he))
      · simp at h1
      · simp at h1

/-- Witness for C3 at a concrete environment whose read yields no data. -/
theorem c3_no_aos_iff_witness :
    ((plotit envNoAos "f.yoda" false false false).outcome =
        Outcome.raisedRuntime ("No AOS read from " ++ "f.yoda") ↔ envNoAos.aos = none) ∧
    (envNoAos.aos = none →
      (plotit envNoAos "f.yoda" false false false).drawn = none ∧
      (plotit envNoAos "f.yoda" false false false).shown = false ∧
      (plotit envNoAos "f.yoda" false false false).savedPng = none ∧
      (mainRun envNoAos (Except.ok { input := "f.yoda", raw := false, reference := false, save := false })).printed = ["No AOS read from " ++ "f.yoda"] ∧
      (mainRun envNoAos (Except.ok { input := "f.yoda", raw := false, reference := false, save := false })).promptPrinted = true ∧
      (mainRun envNoAos (Except.ok { input := "f.yoda", raw := false, reference := false, save := false })).exited = none ∧
      (mainRun envNoAos (Except.ok { input := "f.yoda", raw := false, reference := false, save := false })).uncaught = none) :=
  c3_no_aos_iff envNoAos "f.yoda" false false false rfl

/-! Claim C4. -/

/-- A non-empty string has positive length. -/
theorem length_pos_of_ne_empty (p : String) (hp0 : p ≠ "") : p.length > 0 := by
  cases hd : p.data with
  | cons c cs => simp [String.length, hd]
  | nil =>
      exfalso
      apply hp0
      have e : p = String.mk p.data := rfl
      rw [e, hd]

/-- C4: on every run in which a prefix matched, the plot has the fixed axis
labels and its title is the matched event count `int(nev.val())` followed by
" events " and, exactly when the matched prefix is non-empty, the prefix in
parentheses; under the default prefix the title is the count and " events "
with no annotation. -/
theorem c4_labels_title (env : Env) (infile : String) (r rf s : Bool)
    (aos : AOS) (p : String)
    (henv : env.importsOk = true) (haos : env.aos = some aos)
    (hp : List.find? (breakCond aos) pfxList = some p) :
    ∃ nv, (stateAt aos p).nev = some nv ∧
      (plotit env infile r rf s).xlabel = some "$\\eta$" ∧
      (plotit env infile r rf s).ylabel =
        some "$\\mathrm\x7bd\x7dN_\x7b\\mathrm\x7bch\x7d\x7d/\\mathrm\x7bd\x7d\\eta$" ∧
      (plotit env infile r rf s).title =
        some (toString (pyInt nv.val) ++ " events " ++
          (if p.length > 0 then "(" ++ p ++ ")" else "")) ∧
      (p ≠ "" → (plotit env infile r rf s).title =
        some (toString (pyInt nv.val) ++ " events " ++ ("(" ++ p ++ ")"))) ∧
      (p = "" → (plotit env infile r rf s).title =
        some (toString (pyInt nv.val) ++ " events ")) := by
  have hloop := runLoop_break aos p hp
  have hc : breakCond aos p = true := List.find?_some hp
  obtain ⟨h, nv, xs, hh, hlt, hnv, hxs⟩ := breakCond_elim aos p hc
  have hh2 := hh
  have hnv2 := hnv
  simp only [stateAt] at hh2 hnv2
  have htitle : (plotit env infile r rf s).title = some (mkTitle nv p) := by
    rw [plotit_some env infile r rf s aos henv haos]
    simp only [hloop, stateAt, hh2, hnv2]
  have hx : (plotit env infile r rf s).xlabel = some xAxisLabel := by
    rw [plotit_some env infile r rf s aos henv haos]
    simp only [hloop, stateAt, hh2, hnv2]
  have hy : (plotit env infile r rf s).ylabel = some yAxisLabel := by
    rw [plotit_some env infile r rf s aos henv haos]
    simp only [hloop, stateAt, hh2, hnv2]
  refine ⟨nv, hnv, hx, hy, by rw [htitle]; rfl, fun hp0 => ?_, fun hp0 => ?_⟩
  · rw [htitle]
    unfold mkTitle
    rw [if_pos (length_pos_of_ne_empty p hp0)]
  · subst hp0
    rw [htitle]
    unfold mkTitle
    simp [String.append_empty]

/-- Witness for C4 at a file whose default-prefix histogram and companions
are all present: the default prefix matches and the title carries the event
count with no prefix annotation. -/
theorem c4_labels_title_witness :
    ∃ nv, (stateAt aosDefaultFull "").nev = some nv ∧
      (plotit envDefaultFull "f.yoda" false false false).xlabel = some "$\\eta$" ∧
      (plotit envDefaultFull "f.yoda" false false false).ylabel =
        some "$\\mathrm\x7bd\x7dN_\x7b\\mathrm\x7bch\x7d\x7d/\\mathrm\x7bd\x7d\\eta$" ∧
      (plotit envDefaultFull "f.yoda" false false false).title =
        some (toString (pyInt nv.val) ++ " events " ++
          (if ("" : String).length > 0 then "(" ++ "" ++ ")" else "")) ∧
      (("" : String) ≠ "" → (plotit envDefaultFull "f.yoda" false false false).title =
        some (toString (pyInt nv.val) ++ " events " ++ ("(" ++ "" ++ ")"))) ∧
      (("" : String) = "" → (plotit envDefaultFull "f.yoda" false false false).title =
        some (toString (pyInt nv.val) ++ " events ")) :=
  c4_labels_title envDefaultFull "f.yoda" false false false aosDefaultFull ""
    rfl rfl (by decide)

/-! Claim C5. -/

/-- C5: on every successful run, with the save flag set the figure is written
to the input path with its suffix replaced by ".png" — the directory part and
the stem are preserved (they reassemble the input path) — and with the save
flag clear no file is written. -/
theorem c5_save_png (env : Env) (infile : String) (r rf : Bool)
    (aos : AOS) (p : String)
    (henv : env.importsOk = true) (haos : env.aos = some aos)
    (hp : List.find? (breakCond aos) pfxList = some p) :
    (plotit env infile r rf true).savedPng =
      some ((pathParts infile).1 ++ (nameSplit (pathParts infile).2).1 ++ ".png") ∧
    (plotit env infile r rf false).savedPng = none ∧
    (pathParts infile).1 ++ (pathParts infile).2 = infile ∧
    (nameSplit (pathParts infile).2).1 ++ (nameSplit (pathParts infile).2).2
      = (pathParts infile).2 := by
  have hloop := runLoop_break aos p hp
  have hc : breakCond aos p = true := List.find?_some hp
  obtain ⟨h, nv, xs, hh, hlt, hnv, hxs⟩ := breakCond_elim aos p hc
  have hh2 := hh
  have hnv2 := hnv
  simp only [stateAt] at hh2 hnv2
  refine ⟨?_, ?_, pathParts_append infile, nameSplit_append (pathParts infile).2⟩
  · rw [plotit_some env infile r rf true aos henv haos]
    simp only [hloop, stateAt, hh2, hnv2, withSuffixPng]
    simp
  · rw [plotit_some env infile r rf false aos henv haos]
    simp only [hloop, stateAt, hh2, hnv2]
    simp

/-- Witness for C5 at the default input file name. -/
theorem c5_save_png_witness :
    (plotit envDefaultFull "AO2D_LHC23d1f_520259_001.yoda" false false true).savedPng =
      some ((pathParts "AO2D_LHC23d1f_520259_001.yoda").1 ++
        (nameSplit (pathParts "AO2D_LHC23d1f_520259_001.yoda").2).1 ++ ".png") ∧
    (plotit envDefaultFull "AO2D_LHC23d1f_520259_001.yoda" false false false).savedPng = none ∧
    (pathParts "AO2D_LHC23d1f_520259_001.yoda").1 ++
      (pathParts "AO2D_LHC23d1f_520259_001.yoda").2 = "AO2D_LHC23d1f_520259_001.yoda" ∧
    (nameSplit (pathParts "AO2D_LHC23d1f_520259_001.yoda").2).1 ++
      (nameSplit (pathParts "AO2D_LHC23d1f_520259_001.yoda").2).2
      = (pathParts "AO2D_LHC23d1f_520259_001.yoda").2 :=
  c5_save_png envDefaultFull "AO2D_LHC23d1f_520259_001.yoda" false false aosDefaultFull ""
    rfl rfl (by decide)

/-! Claim C6. -/

/-- C6 is false as stated: on `aosRefSparse` (only a below-threshold "/REF"
histogram, no event counter) plotit raises an AttributeError that the entry
point's except clause does not catch, so the final interactive-prompt message
is not printed for that run. -/
theorem c6_counterexample :
    (mainRun envRefSparse (Except.ok (argsFor "f.yoda"))).promptPrinted = false ∧
    (mainRun envRefSparse (Except.ok (argsFor "f.yoda"))).uncaught =
      some "NoneType object has no attribute val" :=
  ⟨by decide, by decide⟩

/-- C6 (amended): the entry point accepts an optional positional input file
defaulting to AO2D_LHC23d1f_520259_001.yoda and the store-true flags "-r"
and "--raw", "-R" and "--reference", "-s" and "--save"; the process never
exits with a failure code; every argument-parse failure prints its message
followed by the prompt; and the prompt is printed on every run in which
plotit does not raise a non-RuntimeError exception — in particular on both
reported data failures and on every success. -/
theorem c6_cli_and_prompt :
    parseArgs [] = Except.ok { input := "AO2D_LHC23d1f_520259_001.yoda", raw := false, reference := false, save := false } ∧
    parseArgs ["-r"] = Except.ok { input := defaultInput, raw := true, reference := false, save := false } ∧
    parseArgs ["--raw"] = Except.ok { input := defaultInput, raw := true, reference := false, save := false } ∧
    parseArgs ["-R"] = Except.ok { input := defaultInput, raw := false, reference := true, save := false } ∧
    parseArgs ["--reference"] = Except.ok { input := defaultInput, raw := false, reference := true, save := false } ∧
    parseArgs ["-s"] = Except.ok { input := defaultInput, raw := false, reference := false, save := true } ∧
    parseArgs ["--save"] = Except.ok { input := defaultInput, raw := false, reference := false, save := true } ∧
    parseArgs ["in.yoda"] = Except.ok { input := "in.yoda", raw := false, reference := false, save := false } ∧
    (∀ env parsed, (mainRun env parsed).exited = none) ∧
    (∀ env msg, (mainRun env (Except.error msg)).printed = [msg] ∧
      (mainRun env (Except.error msg)).promptPrinted = true) ∧
    (∀ env a, ((plotit env a.input a.raw a.reference a.save).outcome).isAttr = false →
      (mainRun env (Except.ok a)).promptPrinted = true) := by
  refine ⟨rfl, rfl, rfl, rfl, rfl, rfl, rfl, rfl, ?_, ?_, ?_⟩
  · intro env parsed
    cases parsed with
    | error msg => rfl
    | ok a =>
        unfold mainRun
        cases hoc : (plotit env a.input a.raw a.reference a.save).outcome <;>
          simp only [hoc]
  · intro env msg
    exact ⟨rfl, rfl⟩
  · intro env a hattr
    unfold mainRun
    cases hoc : (plotit env a.input a.raw a.reference a.save).outcome with
    | ok => simp only [hoc]
    | raisedRuntime m => simp only [hoc]
    | raisedAttr m =>
        rw [hoc] at hattr
        simp [Outcome.isAttr] at hattr

/-- Witness for C6 instantiating its quantified clauses at concrete runs. -/
theorem c6_cli_and_prompt_witness :
    (mainRun envNoAos (Except.error "unrecognized arguments: -x")).printed
      = ["unrecognized arguments: -x"] ∧
    (mainRun envNoAos (Except.ok (argsFor "f.yoda"))).exited = none ∧
    (mainRun envNoAos (Except.ok (argsFor "f.yoda"))).promptPrinted = true :=
  ⟨(c6_cli_and_prompt.2.2.2.2.2.2.2.2.2.1 envNoAos "unrecognized arguments: -x").1,
   c6_cli_and_prompt.2.2.2.2.2.2.2.2.1 envNoAos (Except.ok (argsFor "f.yoda")),
   c6_cli_and_prompt.2.2.2.2.2.2.2.2.2.2 envNoAos (argsFor "f.yoda") (by decide)⟩

/-! Claim C7. -/

/-- C7: the `raw` and `reference` parameters are accepted but never read by
the body: two plotit calls differing only in them are identical in every
observable — prints, reads, drawing, labels, title, showing, saving and
exception outcome. -/
theorem c7_raw_reference_unused (env : Env) (infile : String)
    (s r1 rf1 r2 rf2 : Bool) :
    plotit env infile r1 rf1 s = plotit env infile r2 rf2 s := rfl

/-! Claim C8. -/

/-- C8: when no prefix satisfies the full selection condition but the final
"/REF" histogram lookup returns a histogram, plotit does not report the
not-found error: it proceeds to hand that histogram's data to the plot. -/
theorem c8_falls_through_to_ref (env : Env) (infile : String) (r rf s : Bool)
    (aos : AOS) (h : AnalysisObject)
    (henv : env.importsOk = true) (haos : env.aos = some aos)
    (hno : ∀ p ∈ pfxList, breakCond aos p = false)
    (href : aosGet aos "/REF/ALICE_YYYY_I1234567/d01-x01-y01" = some h) :
    (plotit env infile r rf s).drawn =
      some { xVals := h.xVals, yVals := h.yVals, yErrs := h.yErrs, xErrs := h.xErrs } ∧
    ∀ m, (plotit env infile r rf s).outcome ≠ Outcome.raisedRuntime m := by
  have hloop := runLoop_exhaust aos hno
  have href2 : aosGet aos ("/REF" ++ "/ALICE_YYYY_I1234567/d01-x01-y01") = some h := href
  rw [plotit_some env infile r rf s aos henv haos]
  simp only [hloop, stateAt, href2]
  cases hn : aosGet aos ("/REF" ++ "/_EVTCOUNT") with
  | none =>
      simp only [hn]
      exact ⟨by simp, fun m => by simp⟩
  | some nv =>
      simp only [hn]
      exact ⟨by simp, fun m => by simp⟩

/-- Witness for C8 at the concrete "/REF"-only below-threshold file. -/
theorem c8_falls_through_to_ref_witness :
    (plotit envRefSparse "f.yoda" false false false).drawn =
      some { xVals := histoSparse.xVals, yVals := histoSparse.yVals,
             yErrs := histoSparse.yErrs, xErrs := histoSparse.xErrs } ∧
    (plotit envRefSparse "f.yoda" false false false).outcome ≠
      Outcome.raisedRuntime ("Histogram not found in " ++ "f.yoda") :=
  ⟨(c8_falls_through_to_ref envRefSparse "f.yoda" false false false aosRefSparse
      histoSparse rfl rfl (by decide) rfl).1,
   (c8_falls_through_to_ref envRefSparse "f.yoda" false false false aosRefSparse
      histoSparse rfl rfl (by decide) rfl).2 ("Histogram not found in " ++ "f.yoda")⟩

/-! Claim C9. -/

/-- C9: when any of the library imports fails, plotit prints the import error
and returns normally: the input file is never read, nothing is drawn,
labelled, shown or saved, and no exception is raised. -/
theorem c9_import_failure (env : Env) (infile : String) (r rf s : Bool)
    (henv : env.importsOk = false) :
    plotit env infile r rf s =
      { printed := [env.importErrMsg], reads := 0, drawn := none, xlabel := none,
        ylabel := none, title := none, shown := false, savedPng := none,
        outcome := Outcome.ok } := by
  unfold plotit
  rw [henv]
  rfl

/-- Witness for C9 at a concrete failing-import environment. -/
theorem c9_import_failure_witness :
    plotit envNoImports "f.yoda" false false false =
      { printed := [envNoImports.importErrMsg], reads := 0, drawn := none, xlabel := none,
        ylabel := none, title := none, shown := false, savedPng := none,
        outcome := Outcome.ok } :=
  c9_import_failure envNoImports "f.yoda" false false false rfl

/-! Claim C10. -/

/-- C10: every call that gets past the imports reads the input file exactly
once, regardless of how many prefixes are tried, the outcome, or whether a
PNG is saved. -/
theorem c10_reads_once (env : Env) (infile : String) (r rf s : Bool)
    (henv : env.importsOk = true) :
    (plotit env infile r rf s).reads = 1 := by
  cases haos : env.aos with
  | none =>
      unfold plotit
      simp only [henv, haos, if_true]
      rfl
  | some aos =>
      rw [plotit_some env infile r rf s aos henv haos]
      cases hh : (runLoop aos initSt pfxList).histo with
      | none => simp [hh, emptyResult]
      | some h =>
          cases hn : (runLoop aos initSt pfxList).nev with
          | none => simp [hh, hn]
          | some nv => simp [hh, hn]

/-- Witness for C10: a concrete call with the save flag set still reads the
input exactly once. -/
theorem c10_reads_once_witness :
    (plotit envDefaultFull "f.yoda" false false true).reads = 1 :=
  c10_reads_once envDefaultFull "f.yoda" false false true rfl
